import Mathlib

/-!
# Verification of the pyAlicat device driver

Shallow embedding of `pyalicat/device.py` (the Alicat serial-device command
surface) and `pyalicat/daq.py` (the logger's column ordering), together with
theorems settling the specification claims.

Modelling conventions:
* Python `float` version numbers and numeric tokens are modelled as `ℚ`
  (all comparisons performed by the code are between short decimal literals,
  where rational and IEEE orderings agree).
* The serial transport (`comm.py`) is modelled by `Comm`: a log of frames the
  host has written and a queue of device responses.  `_write_readline`
  appends the frame to the log and pops one response line; on an exhausted
  queue it yields the empty line, exactly as `SerialDevice._write_readline`
  returns the partial (empty) buffer when the read times out.
* Python exceptions are modelled by `Except PyErr`; every method returns the
  final device state and transport alongside the result so that "no bytes
  written" statements are expressible even on the error path.
* The module-level code tables (`statistics`, `units`, `gases`) are loaded
  from the external `codes.json` resource, which is not part of the sources;
  functions take them as explicit association-list parameters.
-/

/-- A Python runtime value as it appears in the driver's dictionaries:
an ASCII token, an `int`, a `float` (modelled as `ℚ`), or `None`. -/
inductive PyVal where
  | str (s : String)
  | int (n : ℤ)
  | num (q : ℚ)
  | null
  deriving DecidableEq, Repr

/-- The Python exceptions the embedded code can raise. -/
inductive PyErr where
  | indexError (msg : String)
  | keyError (msg : String)
  | valueError (msg : String)
  | typeError (msg : String)
  | attributeError (missing : String)
  | unboundLocal (name : String)
  | versionError (msg : String)
  deriving DecidableEq, Repr

/-- Split a character list at every separator (Python `str.split(sep)`
segments, which may be empty). -/
def splitOnPred (p : Char → Bool) : List Char → List (List Char)
  | [] => [[]]
  | c :: rest =>
    let r := splitOnPred p rest
    if p c then [] :: r
    else
      match r with
      | [] => [[c]]
      | a :: as => (c :: a) :: as

deriving instance DecidableEq for Except

/-- Python `str.split()` with no argument: split on runs of whitespace,
discarding empty pieces. -/
def pySplit (s : String) : List String :=
  ((splitOnPred Char.isWhitespace s.toList).map String.mk).filter (fun t => t ≠ "")

/-- Strip leading and trailing whitespace from a character list
(Python `str.strip()` / the whitespace stripping of `float()`). -/
def charStrip (cs : List Char) : List Char :=
  ((cs.dropWhile Char.isWhitespace).reverse.dropWhile Char.isWhitespace).reverse

/-- Python `str.strip()`. -/
def strTrim (s : String) : String :=
  String.mk (charStrip s.toList)

/-- Python `str.upper()` (the driver only feeds it ASCII). -/
def strUpper (s : String) : String :=
  String.mk (s.toList.map Char.toUpper)

/-- Python `str.lower()` (the driver only feeds it ASCII). -/
def strLower (s : String) : String :=
  String.mk (s.toList.map Char.toLower)

/-- Python `s.replace(" ", "_")` (single-character pattern). -/
def underscoreSpaces (s : String) : String :=
  String.mk (s.toList.map (fun c => if c = ' ' then '_' else c))

/-- Python `s.startswith("*")`. -/
def startsStar (s : String) : Bool :=
  match s.toList with
  | '*' :: _ => true
  | _ => false

/-- Value of a list of decimal digit characters (`none` if empty or if a
non-digit occurs). -/
def digitsVal : List Char → Option ℕ
  | [] => none
  | cs =>
    if cs.all Char.isDigit then
      some (cs.foldl (fun acc c => 10 * acc + (c.toNat - '0'.toNat)) 0)
    else none

/-- Python `float(s)` on an unsigned plain decimal literal
(`"14"`, `"014.70"`, `"14."`, `".5"`). -/
def parseUnsignedFloat (cs : List Char) : Option ℚ :=
  let intPart := cs.takeWhile Char.isDigit
  let rest := cs.dropWhile Char.isDigit
  match rest with
  | [] => (digitsVal intPart).map (fun n => (n : ℚ))
  | '.' :: frac =>
    if intPart = [] ∧ frac = [] then none
    else if frac = [] then (digitsVal intPart).map (fun n => (n : ℚ))
    else
      match digitsVal frac with
      | none => none
      | some f =>
        some (((digitsVal intPart).getD 0 : ℚ) + (f : ℚ) / (10 : ℚ) ^ frac.length)
  | _ => none

/-- Python `float(s)`: strip surrounding whitespace, optional sign, then a
plain decimal literal.  (The exponent / infinity forms accepted by Python
never occur in device tokens and are not modelled.) -/
def parsePyFloat (s : String) : Option ℚ :=
  match charStrip s.toList with
  | '+' :: rest => parseUnsignedFloat rest
  | '-' :: rest => (parseUnsignedFloat rest).map Neg.neg
  | cs => parseUnsignedFloat cs

/-- Smallest number of decimal digits that writes `q` exactly, if any. -/
def decDigits (q : ℚ) : Option ℕ :=
  (List.range 21).find? (fun k => (q * (10 : ℚ) ^ k).den = 1)

/-- Left-pad a numeral string with zeros to length `k`. -/
def padZeros (k : ℕ) (s : String) : String :=
  String.mk (List.replicate (k - s.length) '0') ++ s

/-- Python `str(f)` for a float with a short exact decimal expansion
(`20.0`, `-3.25`); this is the repr Python prints for such values. -/
def floatRepr (q : ℚ) : String :=
  match decDigits q with
  | some 0 => toString q.num ++ ".0"
  | some (k + 1) =>
    let m := (q * (10 : ℚ) ^ (k + 1)).num
    let sign := if m < 0 then "-" else ""
    let a := m.natAbs
    sign ++ toString (a / 10 ^ (k + 1)) ++ "." ++ padZeros (k + 1) (toString (a % 10 ^ (k + 1)))
  | none => toString q

/-- Python `str(v)` / f-string interpolation of a value. -/
def pyStr : PyVal → String
  | .str s => s
  | .int n => toString n
  | .num q => floatRepr q
  | .null => "None"

/-- Python `dict` as an insertion-ordered association list.  `dictSet`
is `d[k] = v`: update in place if the key exists, else append. -/
def dictSet (d : List (String × PyVal)) (k : String) (v : PyVal) :
    List (String × PyVal) :=
  if d.any (fun p => p.1 = k) then
    d.map (fun p => if p.1 = k then (k, v) else p)
  else d ++ [(k, v)]

/-- Python `d.update(ps)` (also `dict(zip(...))` when folded from `[]`). -/
def pyUpdate (d : List (String × PyVal)) (ps : List (String × PyVal)) :
    List (String × PyVal) :=
  ps.foldl (fun acc p => dictSet acc p.1 p.2) d

/-- Python `dict(pairs)`. -/
def pyDict (ps : List (String × PyVal)) : List (String × PyVal) :=
  pyUpdate [] ps

/-- Does `n` occur as a contiguous run at some offset of `h`? -/
def subAt (n : List Char) : List Char → Bool
  | [] => n.isEmpty
  | h :: t => n.isPrefixOf (h :: t) || subAt n t

/-- `"needle" in haystack` on Python strings (contiguous substring test). -/
def containsSub (needle haystack : String) : Bool :=
  subAt needle.toList haystack.toList

/-- The serial transport of `comm.py`, abstracted: `sent` is the log of
frames written by the host (EOL stripped), `replies` queues the device's
responses, one entry (a list of lines) per host command. -/
structure Comm where
  sent : List String
  replies : List (List String)
  deriving DecidableEq, Repr

/-- `SerialDevice._write`: write one frame, read nothing. -/
def Comm.write (c : Comm) (frame : String) : Comm :=
  { c with sent := c.sent ++ [frame] }

/-- `SerialDevice._write_readline`: write one frame, then read one line.
A timed-out read returns the empty partial buffer, never an exception. -/
def Comm.writeReadline (c : Comm) (frame : String) : String × Comm :=
  match c.replies with
  | [] => ("", { c with sent := c.sent ++ [frame] })
  | r :: rs => (r.headD "", { sent := c.sent ++ [frame], replies := rs })

/-- `SerialDevice._write_readall`: write one frame, then read lines until
the device goes idle. -/
def Comm.writeReadall (c : Comm) (frame : String) : List String × Comm :=
  match c.replies with
  | [] => ([], { c with sent := c.sent ++ [frame] })
  | r :: rs => (r, { sent := c.sent ++ [frame], replies := rs })

/-- The mutable attributes of a `Device` that the embedded methods touch:
the bus address `_id`, the parsed firmware version `_vers`, the lazily
discovered data-frame schema `_df_format` / `_df_ret`, and the stray `id`
attribute that `stop_stream` assigns (distinct from `_id`). -/
structure DeviceState where
  idStr : String
  vers : ℚ
  dfFormat : Option (List String)
  dfRet : Option (List String)
  idAttr : Option String := none
  deriving DecidableEq, Repr

/-- Result of a device method: final state, final transport, and the Python
result or the exception raised. -/
abbrev DevRes (α : Type) := DeviceState × Comm × Except PyErr α

/-- Python truthiness of an optional string argument (`None` and `""` are
falsy). -/
def truthyStr : Option String → Bool
  | none => false
  | some s => s ≠ ""

/-- Python list slice `l[a:b]` (`b = none` for an omitted stop). -/
def pySlice {α : Type} (l : List α) (a : ℕ) (b : Option ℕ) : List α :=
  match b with
  | none => l.drop a
  | some j => (l.take j).drop a

/-- Python string slice `k[a:b]`. -/
def pySliceStr (k : String) (a : ℕ) (b : Option ℕ) : String :=
  String.mk (pySlice k.toList a b)

/-- Indices of the whitespace characters of a string
(`re.finditer(r"\s", s)` match starts). -/
def whitespaceIdxs (s : String) : List ℕ :=
  (s.toList.enum.filter (fun p => p.2.isWhitespace)).map (fun p => p.1)

/-- Indices of the rows of `types` whose TYPE cell contains `"decimal"`
(`[idx for idx, s in enumerate(self._df_ret) if "decimal" in s]`). -/
def decimalIndices (types : List String) : List ℕ :=
  (types.enum.filter (fun p => containsSub "decimal" p.2)).map (fun p => p.1)

/-- One step of the coercion loop `df[index] = float(df[index])`:
reading out of range raises `IndexError`, an unparsable token raises
`ValueError`. -/
def coerceAt (df : List PyVal) (i : ℕ) : Except PyErr (List PyVal) :=
  match df.get? i with
  | none => .error (.indexError "list index out of range")
  | some (.str t) =>
    match parsePyFloat t with
    | some q => .ok (df.set i (.num q))
    | none => .error (.valueError ("could not convert string to float: " ++ t))
  | some (.num q) => .ok (df.set i (.num q))
  | some (.int n) => .ok (df.set i (.num (n : ℚ)))
  | some .null => .error (.typeError "float() argument must not be None")

/-- The loop `for index in [...]: df[index] = float(df[index])` shared by
every method that parses a standard data frame. -/
def coerceDecimals (types : List String) (df : List String) :
    Except PyErr (List PyVal) :=
  (decimalIndices types).foldlM coerceAt (df.map PyVal.str)

/-- The generator `str(statistics[stat]) for stat in stats`: all code
lookups, failing with `KeyError` (`none`) on the first unknown name. -/
def lookupAll (statsT : List (String × ℕ)) : List String → Option (List ℕ)
  | [] => some []
  | m :: ms =>
    match List.lookup m statsT, lookupAll statsT ms with
    | some n, some ns => some (n :: ns)
    | _, _ => none

/-- The loop building `gas_string` in `create_gas_mix`: pair each
percentage with the `gases[x]` code, `KeyError` (`none`) on a miss. -/
def mixEntries (gasesT : List (String × ℕ)) :
    List (String × ℚ) → Option (List (ℚ × ℕ))
  | [] => some []
  | p :: ps =>
    match List.lookup p.1 gasesT, mixEntries gasesT ps with
    | some n, some es => some ((p.2, n) :: es)
    | _, _ => none

namespace Device

/-- `Device.get_df_format`: send `<id>??D*`, locate the column boundaries
from the whitespace of the header row, extract the NAME and TYPE cells of
the body rows, store the full `_df_format` / `_df_ret` lists and return the
standard (non-`*`) prefix of each. -/
def get_df_format (s : DeviceState) (c : Comm) :
    DevRes (List String × List String) :=
  let (resp, c') := c.writeReadall (s.idStr ++ "??D*")
  match resp with
  | [] => (s, c', .error (.indexError "list index out of range"))
  | resp0 :: _ =>
    let splits := whitespaceIdxs resp0
    let nexts := (splits.drop 1).map some ++ [none]
    let pairs := splits.zip nexts
    let df_table := resp.map (fun k => pairs.map (fun p => pySliceStr k (p.1 + 1) p.2))
    let header := df_table.headD []
    match (header.enum.filter (fun p => containsSub "NAME" p.2)).map (fun p => p.1) with
    | [] => (s, c', .error (.indexError "list index out of range"))
    | nIdx :: _ =>
      match (header.enum.filter (fun p => containsSub "TYPE" p.2)).map (fun p => p.1) with
      | [] => (s, c', .error (.indexError "list index out of range"))
      | tIdx :: _ =>
        let body := (df_table.drop 1).dropLast
        let df_format := (body.map (fun row => strTrim (row.getD nIdx ""))).map
          underscoreSpaces
        let df_ret := body.map (fun row => strTrim (row.getD tIdx ""))
        let df_stand := df_format.filter (fun i => ¬ startsStar i)
        let df_stand_ret := df_ret.take df_stand.length
        ({ s with dfFormat := some df_format, dfRet := some df_ret }, c',
          .ok (df_stand, df_stand_ret))

/-- The schema-discovery step `if self._df_format is None: await
self.get_df_format()` shared by every data-frame command. -/
def discoverIfNeeded (s : DeviceState) (c : Comm) : DevRes Unit :=
  if s.dfFormat = none then
    match get_df_format s c with
    | (s', c', .ok _) => (s', c', .ok ())
    | (s', c', .error e) => (s', c', .error e)
  else (s, c, .ok ())

/-- The shared tail of every command that replies with a standard data
frame: discover the schema if unknown, write `frame`, split the reply,
coerce the decimal columns, and zip with `_df_format`. -/
def readDataFrame (s : DeviceState) (c : Comm) (frame : String) :
    DevRes (List (String × PyVal)) :=
  match discoverIfNeeded s c with
  | (s', c', .error e) => (s', c', .error e)
  | (s', c', .ok _) =>
    let (ret, c'') := c'.writeReadline frame
    let df := pySplit ret
    match s'.dfRet with
    | none => (s', c'', .error (.typeError "NoneType is not iterable"))
    | some types =>
      match coerceDecimals types df with
      | .error e => (s', c'', .error e)
      | .ok vals =>
        (s', c'', .ok (pyDict ((s'.dfFormat.getD []).zip vals)))

/-- `Device.poll`: write the bare unit id, parse the reply as a standard
data frame. -/
def poll (s : DeviceState) (c : Comm) : DevRes (List (String × PyVal)) :=
  readDataFrame s c s.idStr

/-- `Device.request`: more than 13 statistics raises `IndexError` before
anything is written; otherwise one `<id>DV <ms> <codes...>` frame is sent
(an unknown name raises `KeyError` while the frame is being formatted,
still before the write) and the reply tokens are float-coerced with the
`--` sentinel mapped to `None`. -/
def request (statsT : List (String × ℕ)) (s : DeviceState) (c : Comm)
    (stats : List String) (time : ℤ) : DevRes (List (String × PyVal)) :=
  if stats.length > 13 then
    (s, c, .error (.indexError "Too many statistics requested"))
  else
    match lookupAll statsT stats with
    | none => (s, c, .error (.keyError "statistic not found"))
    | some codes =>
      let frame := s.idStr ++ "DV " ++ toString time ++ " " ++
        String.intercalate " " (codes.map toString)
      let (ret, c') := c.writeReadline frame
      let vals := (pySplit ret).map (fun tok =>
        match parsePyFloat tok with
        | some q => PyVal.num q
        | none => if tok = "--" then PyVal.null else PyVal.str tok)
      (s, c', .ok (pyDict (stats.zip vals)))

/-- `Device.start_stream`: write `<id>@ @`. -/
def start_stream (s : DeviceState) (c : Comm) : DeviceState × Comm :=
  (s, c.write (s.idStr ++ "@ @"))

/-- `Device.stop_stream`: write `@@ <new_id>` and assign the (separate)
`id` attribute; `_id` is not touched. -/
def stop_stream (s : DeviceState) (c : Comm) (new_id : Option String) :
    DeviceState × Comm :=
  let nid := new_id.getD s.idStr
  ({ s with idAttr := some nid }, c.write ("@@ " ++ nid))

/-- `Device.change_unit_id`: write `<id>@ <new_id>` and update `_id`. -/
def change_unit_id (s : DeviceState) (c : Comm) (new_id : String) :
    DeviceState × Comm :=
  ({ s with idStr := new_id }, c.write (s.idStr ++ "@ " ++ new_id))

/-- Body of `Device._set_gas` past its version check: discover the schema
if needed, write `<id>G <code>` and parse a standard data frame. -/
def setGasBody (gasesT : List (String × ℕ)) (s : DeviceState) (c : Comm)
    (gas : Option String) : DevRes (List (String × PyVal)) :=
  let gcode : Option ℕ := gas.bind (fun g => List.lookup g gasesT)
  let codeStr := match gcode with
    | some n => if n = 0 then "" else toString n
    | none => ""
  readDataFrame s c (s.idStr ++ "G " ++ codeStr)

/-- Body of `Device.gas` past its routing check (the `GS` wire form).
`gases.get(gas, "")` yields a falsy value for an unknown or omitted name,
which forces `save = None`; `savestr` is only ever assigned when `save` is
a `bool`, so interpolating it with `save = None` raises
`UnboundLocalError` before anything is written. -/
def gasGSBody (gasesT : List (String × ℕ)) (s : DeviceState) (c : Comm)
    (gas : Option String) (save : Option Bool) :
    DevRes (List (String × PyVal)) :=
  let LABELS := ["Unit_ID", "Gas_Code", "Gas", "Gas_Long"]
  let gcode : Option ℕ := gas.bind (fun g => List.lookup g gasesT)
  let truthyCode : Bool := match gcode with
    | some n => n != 0
    | none => false
  let save' := if truthyCode then save else none
  match save' with
  | none => (s, c, .error (.unboundLocal "savestr"))
  | some b =>
    let savestr := if b then "1" else "0"
    let codeStr := if truthyCode then toString (gcode.getD 0) else ""
    let (ret, c') := c.writeReadline (s.idStr ++ "GS " ++ codeStr ++ " " ++ savestr)
    (s, c', .ok (pyDict (LABELS.zip ((pySplit ret).map PyVal.str))))

/-- `Device.gas`: route to the legacy `G` form only when a (truthy) gas
name was supplied on a firmware below 10.05; in every other case take the
`GS` path.  The cross-call `self._set_gas(gas)` re-checks the version and
(the guard being already decided here) runs the legacy body. -/
def gas (gasesT : List (String × ℕ)) (s : DeviceState) (c : Comm)
    (gasArg : Option String) (save : Option Bool) :
    DevRes (List (String × PyVal)) :=
  if truthyStr gasArg ∧ s.vers ≠ 0 ∧ s.vers < 10.05 then
    setGasBody gasesT s c gasArg
  else
    gasGSBody gasesT s c gasArg save

/-- `Device._set_gas`: on firmware 10.05 or newer route back to
`Device.gas`, whose guard then resolves to the `GS` path; otherwise run
the legacy `G` body. -/
def set_gas (gasesT : List (String × ℕ)) (s : DeviceState) (c : Comm)
    (gasArg : Option String) : DevRes (List (String × PyVal)) :=
  if s.vers ≠ 0 ∧ 10.05 ≤ s.vers then
    gasGSBody gasesT s c gasArg none
  else
    setGasBody gasesT s c gasArg

/-- `Device.create_gas_mix`: version below 5.00 raises `VersionError`;
more than 5 constituents raises `IndexError`; both before any write.
Neither the slot `number` nor the percentage sum is validated.  An unknown
gas name raises `KeyError` while `gas_string` is being built, still before
the write; otherwise exactly one `<id>GM ...` frame is sent. -/
def create_gas_mix (gasesT : List (String × ℕ)) (s : DeviceState) (c : Comm)
    (name : String) (number : ℤ) (gas_dict : List (String × ℚ)) :
    DevRes (List (String × PyVal)) :=
  if s.vers ≠ 0 ∧ s.vers < 5.00 then
    (s, c, .error (.versionError "Version earlier than 5v00"))
  else if gas_dict.length > 5 then
    (s, c, .error (.indexError "Too many input gases"))
  else
    match mixEntries gasesT gas_dict with
    | none => (s, c, .error (.keyError "gas not found"))
    | some entries =>
      let gas_string := entries.foldl
        (fun acc p => acc ++ " " ++ floatRepr p.1 ++ " " ++ toString p.2) ""
      let LABELS := ["Unit_ID", "Gas_Num", "Gas1_Name", "Gas1_Perc",
        "Gas2_Name", "Gas2_Perc", "Gas3_Name", "Gas3_Perc",
        "Gas4_Name", "Gas4_Perc", "Gas5_Name", "Gas5_Perc"]
      let (ret, c') := c.writeReadline
        (s.idStr ++ "GM " ++ name ++ " " ++ toString number ++ gas_string)
      (s, c', .ok (pyDict (LABELS.zip ((pySplit ret).map PyVal.str))))

end Device

namespace FlowController

/-- The `<id>LS <value> <unit-code>` wire form of `FlowController.setpoint`
(its body past the version guard).  An unknown unit name — including the
omitted default `""` — raises `KeyError` on the `units[unit]` lookup before
the write; a literal `?` reply raises `ValueError`; the reply's second and
third tokens are float-coerced. -/
def setpointLSBody (unitsT : List (String × ℕ)) (s : DeviceState) (c : Comm)
    (value : PyVal) (unit : String) : DevRes (List (String × PyVal)) :=
  let LABELS := ["Unit_ID", "Curr_Setpt", "Requested_Setpt", "Unit_Code", "Unit_Label"]
  match List.lookup unit unitsT with
  | none => (s, c, .error (.keyError unit))
  | some ucode =>
    let (ret, c') := c.writeReadline
      (s.idStr ++ "LS " ++ pyStr value ++ " " ++ toString ucode)
    if ret = "?" then (s, c', .error (.valueError "Invalid setpoint value"))
    else
      let toks := pySplit ret
      match toks.get? 1, toks.get? 2 with
      | some t1, some t2 =>
        match parsePyFloat t1, parsePyFloat t2 with
        | some q1, some q2 =>
          let vals := ((toks.map PyVal.str).set 1 (.num q1)).set 2 (.num q2)
          (s, c', .ok (pyDict (LABELS.zip vals)))
        | _, _ => (s, c', .error (.valueError "could not convert string to float"))
      | _, _ => (s, c', .error (.indexError "list index out of range"))

/-- `FlowController.setpoint`: on firmware below 9.00 the code calls
`self.change_setpoint(value)`, but the class only defines
`_change_setpoint`, so attribute lookup raises `AttributeError` and
nothing is sent; otherwise the `LS` wire form is used. -/
def setpoint (unitsT : List (String × ℕ)) (s : DeviceState) (c : Comm)
    (value : PyVal) (unit : String) : DevRes (List (String × PyVal)) :=
  if s.vers ≠ 0 ∧ s.vers < 9.00 then
    (s, c, .error (.attributeError "change_setpoint"))
  else
    setpointLSBody unitsT s c value unit

/-- `FlowController._change_setpoint` (the legacy `<id>S <value>` form):
below 4.33 `VersionError`; at 9.00 or above it routes back to `setpoint`,
whose guard then resolves to the `LS` body with the default `unit = ""`;
otherwise it sends `<id>S <value>` and parses a standard data frame. -/
def change_setpoint (unitsT : List (String × ℕ)) (s : DeviceState) (c : Comm)
    (value : PyVal) : DevRes (List (String × PyVal)) :=
  if s.vers ≠ 0 ∧ s.vers < 4.33 then
    (s, c, .error (.versionError "Version earlier than 4v33"))
  else if s.vers ≠ 0 ∧ 9.00 ≤ s.vers then
    setpointLSBody unitsT s c value ""
  else
    Device.readDataFrame s c (s.idStr ++ "S " ++ pyStr value)

/-- `FlowController.cancel_valve_hold`: after the (optional) schema
discovery, the statement `gas = gases.get(gas, "")` reads the local name
`gas` before its first assignment, so the method raises
`UnboundLocalError` before writing its `<id>C` frame. -/
def cancel_valve_hold (s : DeviceState) (c : Comm) :
    DevRes (List (String × PyVal)) :=
  match Device.discoverIfNeeded s c with
  | (s', c', .error e) => (s', c', .error e)
  | (s', c', .ok _) => (s', c', .error (.unboundLocal "gas"))

/-- `FlowController.exhaust`: version gate 4.37, then the same
read-before-assignment of `gas` raises `UnboundLocalError` before the
`<id>E` frame is written. -/
def exhaust (s : DeviceState) (c : Comm) : DevRes (List (String × PyVal)) :=
  if s.vers ≠ 0 ∧ s.vers < 4.37 then
    (s, c, .error (.versionError "Version earlier than 4v37"))
  else
    match Device.discoverIfNeeded s c with
    | (s', c', .error e) => (s', c', .error e)
    | (s', c', .ok _) => (s', c', .error (.unboundLocal "gas"))

/-- `FlowController.hold_valves`: version gate 5.07, then
`UnboundLocalError` on `gas` before the `<id>HP` frame. -/
def hold_valves (s : DeviceState) (c : Comm) : DevRes (List (String × PyVal)) :=
  if s.vers ≠ 0 ∧ s.vers < 5.07 then
    (s, c, .error (.versionError "Version earlier than 5v07"))
  else
    match Device.discoverIfNeeded s c with
    | (s', c', .error e) => (s', c', .error e)
    | (s', c', .ok _) => (s', c', .error (.unboundLocal "gas"))

/-- `FlowController.hold_valves_closed`: version gate 5.07, then
`UnboundLocalError` on `gas` before the `<id>HC` frame. -/
def hold_valves_closed (s : DeviceState) (c : Comm) :
    DevRes (List (String × PyVal)) :=
  if s.vers ≠ 0 ∧ s.vers < 5.07 then
    (s, c, .error (.versionError "Version earlier than 5v07"))
  else
    match Device.discoverIfNeeded s c with
    | (s', c', .error e) => (s', c', .error e)
    | (s', c', .ok _) => (s', c', .error (.unboundLocal "gas"))

end FlowController

/-- Successive slices `reqs[13*i : 13 + 13*i]` taken by the `while i * 13 <
len(reqs)` loop of the aggregate `get`. -/
def chunksOf : List String → List (List String)
  | [] => []
  | x :: xs => ((x :: xs).take 13) :: chunksOf ((x :: xs).drop 13)
termination_by l => l.length
decreasing_by
  simp only [List.length_drop, List.length_cons]
  omega

/-- The first pass of `Device.get` over `measurements`: collect recognized
statistic names into `reqs`, serve `GAS` via `Device.gas`, and on the first
other name issue a single `poll` (guarded by `flag`). -/
def Device.getScan (statsT gasesT : List (String × ℕ)) :
    List String → List (String × PyVal) → Bool → List String →
    DeviceState → Comm → DevRes (List (String × PyVal) × List String)
  | [], resp, _, reqs, s, c => (s, c, .ok (resp, reqs))
  | m :: rest, resp, flag, reqs, s, c =>
    if (List.lookup m statsT).isSome then
      Device.getScan statsT gasesT rest resp flag (reqs ++ [m]) s c
    else if strUpper m = "GAS" then
      match Device.gas gasesT s c none none with
      | (s', c', .ok d) => Device.getScan statsT gasesT rest (pyUpdate resp d) flag reqs s' c'
      | (s', c', .error e) => (s', c', .error e)
    else if flag = false then
      match Device.poll s c with
      | (s', c', .ok d) => Device.getScan statsT gasesT rest (pyUpdate resp d) true reqs s' c'
      | (s', c', .error e) => (s', c', .error e)
    else
      Device.getScan statsT gasesT rest resp flag reqs s c

/-- The second pass of the aggregate `get`: one `request` (time = 1) per
chunk of 13 collected statistic names. -/
def Device.requestLoop (statsT : List (String × ℕ)) :
    List (List String) → List (String × PyVal) → DeviceState → Comm →
    DevRes (List (String × PyVal))
  | [], resp, s, c => (s, c, .ok resp)
  | ch :: chs, resp, s, c =>
    match Device.request statsT s c ch 1 with
    | (s', c', .ok d) => Device.requestLoop statsT chs (pyUpdate resp d) s' c'
    | (s', c', .error e) => (s', c', .error e)

/-- `Device.get`: an empty list defaults to `["@"]`; recognized statistic
names are batched into `DV` requests of at most 13, `GAS` goes through
`Device.gas`, anything else triggers one `poll`. -/
def Device.get (statsT gasesT : List (String × ℕ)) (s : DeviceState) (c : Comm)
    (measurements : List String) : DevRes (List (String × PyVal)) :=
  let meas := if measurements.isEmpty then ["@"] else measurements
  match Device.getScan statsT gasesT meas [] false [] s c with
  | (s', c', .error e) => (s', c', .error e)
  | (s', c', .ok (resp, reqs)) =>
    Device.requestLoop statsT (chunksOf reqs) resp s' c'

/-- The first pass of `FlowController.get`: as `Device.getScan` but the
statistic branch also requires a truthy name (`if meas and meas in
statistics`) and the synthetic names `SETPOINT` / `STPT` are served via
`FlowController.setpoint` with its empty defaults. -/
def FlowController.getScan (statsT gasesT unitsT : List (String × ℕ)) :
    List String → List (String × PyVal) → Bool → List String →
    DeviceState → Comm → DevRes (List (String × PyVal) × List String)
  | [], resp, _, reqs, s, c => (s, c, .ok (resp, reqs))
  | m :: rest, resp, flag, reqs, s, c =>
    if m ≠ "" ∧ (List.lookup m statsT).isSome then
      FlowController.getScan statsT gasesT unitsT rest resp flag (reqs ++ [m]) s c
    else if strUpper m = "GAS" then
      match Device.gas gasesT s c none none with
      | (s', c', .ok d) =>
        FlowController.getScan statsT gasesT unitsT rest (pyUpdate resp d) flag reqs s' c'
      | (s', c', .error e) => (s', c', .error e)
    else if strUpper m = "SETPOINT" ∨ strUpper m = "STPT" then
      match FlowController.setpoint unitsT s c (.str "") "" with
      | (s', c', .ok d) =>
        FlowController.getScan statsT gasesT unitsT rest (pyUpdate resp d) flag reqs s' c'
      | (s', c', .error e) => (s', c', .error e)
    else if flag = false then
      match Device.poll s c with
      | (s', c', .ok d) =>
        FlowController.getScan statsT gasesT unitsT rest (pyUpdate resp d) true reqs s' c'
      | (s', c', .error e) => (s', c', .error e)
    else
      FlowController.getScan statsT gasesT unitsT rest resp flag reqs s c

/-- `FlowController.get` (the controller override of the aggregate get). -/
def FlowController.get (statsT gasesT unitsT : List (String × ℕ))
    (s : DeviceState) (c : Comm) (measurements : List String) :
    DevRes (List (String × PyVal)) :=
  let meas := if measurements.isEmpty then ["@"] else measurements
  match FlowController.getScan statsT gasesT unitsT meas [] false [] s c with
  | (s', c', .error e) => (s', c', .error e)
  | (s', c', .ok (resp, reqs)) =>
    Device.requestLoop statsT (chunksOf reqs) resp s' c'

namespace DAQLogging

/-- `DAQLogging._key_func`: synthesize `chr(0)`, `chr(1)`, `chr(2)` as sort
keys for `Request Sent`, `Response Received` and (case-insensitively)
`unit_id`; every other key sorts as itself. -/
def key_func (x : String) : String :=
  if x = "Request Sent" then String.mk [Char.ofNat 0]
  else if x = "Response Received" then String.mk [Char.ofNat 1]
  else if strLower x = "unit_id" then String.mk [Char.ofNat 2]
  else x

/-- `sorted(dict.keys(), key=self._key_func)` in `create_table`: a stable
sort comparing the synthesized keys by code-point order (Python string
comparison), modelled by Mathlib's stable `insertionSort`. -/
def sortKeys (ks : List String) : List String :=
  List.insertionSort (fun a b => (key_func a).toList ≤ (key_func b).toList) ks

end DAQLogging

/-- Modelled from the spec: the `statistics` map of the external
`codes.json` asset (not part of the sources); scenario S3 fixes
`Mass_Flow ↦ 5` and `Abs_Press ↦ 2`. -/
def sampleStatistics : List (String × ℕ) := [("Mass_Flow", 5), ("Abs_Press", 2)]

/-- Modelled from the spec: the `gases` map of the external `codes.json`
asset (name ↦ u16 code); the concrete codes are sample data. -/
def sampleGases : List (String × ℕ) := [("O2", 11), ("N2", 8)]

/-- Modelled from the spec: the `units` map of the external `codes.json`
asset; scenario S4 fixes `SCCM ↦ 12`. -/
def sampleUnits : List (String × ℕ) := [("SCCM", 12)]

/-- The `<id>DV <ms> <codes...>` frame `Device.request` writes for a list of
known statistic names. -/
def dvFrame (statsT : List (String × ℕ)) (s : DeviceState)
    (stats : List String) (time : ℤ) : String :=
  s.idStr ++ "DV " ++ toString time ++ " " ++
    String.intercalate " " (stats.map (fun m => toString ((List.lookup m statsT).getD 0)))

/-- The `<id>GM ...` frame `Device.create_gas_mix` writes for a dictionary
of known gas names. -/
def gmFrame (gasesT : List (String × ℕ)) (s : DeviceState) (name : String)
    (number : ℤ) (gd : List (String × ℚ)) : String :=
  s.idStr ++ "GM " ++ name ++ " " ++ toString number ++
    gd.foldl (fun acc p =>
      acc ++ " " ++ floatRepr p.2 ++ " " ++ toString ((List.lookup p.1 gasesT).getD 0)) ""

section HelperLemmas

/-- Writing one frame appends it to the log, whatever the reply queue holds. -/
theorem writeReadline_sent (c : Comm) (frame : String) :
    ((c.writeReadline frame).2).sent = c.sent ++ [frame] := by
  cases h : c.replies <;> simp [Comm.writeReadline, h]

/-- When every name is in the table, `lookupAll` is the plain map of the
(defaulted) lookups. -/
theorem lookupAll_eq_map (statsT : List (String × ℕ)) :
    ∀ (l : List String), (∀ m ∈ l, (List.lookup m statsT).isSome) →
      lookupAll statsT l = some (l.map (fun m => (List.lookup m statsT).getD 0)) := by
  intro l
  induction l with
  | nil => intro _; rfl
  | cons m ms ih =>
    intro h
    obtain ⟨n, hn⟩ := Option.isSome_iff_exists.mp (h m (List.mem_cons_self m ms))
    have hms := ih (fun y hy => h y (List.mem_cons_of_mem m hy))
    simp [lookupAll, hn, hms]

/-- When every gas is in the table, `mixEntries` is the plain map of the
(defaulted) lookups. -/
theorem mixEntries_eq_map (gasesT : List (String × ℕ)) :
    ∀ (l : List (String × ℚ)), (∀ p ∈ l, (List.lookup p.1 gasesT).isSome) →
      mixEntries gasesT l = some (l.map (fun p => (p.2, (List.lookup p.1 gasesT).getD 0))) := by
  intro l
  induction l with
  | nil => intro _; rfl
  | cons p ps ih =>
    intro h
    obtain ⟨n, hn⟩ := Option.isSome_iff_exists.mp (h p (List.mem_cons_self p ps))
    have hps := ih (fun y hy => h y (List.mem_cons_of_mem p hy))
    simp [mixEntries, hn, hps]

end HelperLemmas

section RequestLemmas

/-- `Device.request` of at most 13 known names: state unchanged, exactly
one `DV` frame appended, one reply consumed, `ok` result. -/
theorem request_sent_ok (statsT : List (String × ℕ)) (s : DeviceState)
    (c : Comm) (stats : List String) (time : ℤ)
    (h13 : stats.length ≤ 13) (hk : ∀ m ∈ stats, (List.lookup m statsT).isSome) :
    (Device.request statsT s c stats time).1 = s ∧
    ((Device.request statsT s c stats time).2.1).sent =
      c.sent ++ [dvFrame statsT s stats time] ∧
    ((Device.request statsT s c stats time).2.1).replies = c.replies.tail ∧
    ∃ r, (Device.request statsT s c stats time).2.2 = .ok r := by
  have hnot : ¬ stats.length > 13 := by omega
  have hmap := lookupAll_eq_map statsT stats hk
  cases hr : c.replies with
  | nil =>
    refine ⟨?_, ?_, ?_, ?_⟩ <;>
      simp [Device.request, hnot, hmap, Comm.writeReadline, hr, dvFrame,
        List.map_map, Function.comp_def]
  | cons r rs =>
    refine ⟨?_, ?_, ?_, ?_⟩ <;>
      simp [Device.request, hnot, hmap, Comm.writeReadline, hr, dvFrame,
        List.map_map, Function.comp_def]

end RequestLemmas

/-- C2: a `request` with more than 13 statistics fails with the
too-many-statistics `IndexError` with state and transport unchanged (no
bytes written); with at most 13 known names it writes exactly one
`<id>DV <ms> <codes...>` frame and succeeds. -/
theorem C2_request_batching_and_overflow :
    ∀ (statsT : List (String × ℕ)) (s : DeviceState) (c : Comm)
      (stats : List String) (time : ℤ),
    (stats.length > 13 →
      Device.request statsT s c stats time =
        (s, c, .error (.indexError "Too many statistics requested"))) ∧
    (stats.length ≤ 13 → (∀ m ∈ stats, (List.lookup m statsT).isSome) →
      ((Device.request statsT s c stats time).2.1).sent =
        c.sent ++ [dvFrame statsT s stats time] ∧
      ∃ r, (Device.request statsT s c stats time).2.2 = .ok r) := by
  intro statsT s c stats time
  constructor
  · intro h
    simp [Device.request, h]
  · intro h13 hk
    obtain ⟨_, hsent, _, hok⟩ := request_sent_ok statsT s c stats time h13 hk
    exact ⟨hsent, hok⟩

/-- C2 witness: scenario S3 — `request(["Mass_Flow", "Abs_Press"], 100)`
writes exactly the frame `ADV 100 5 2`. -/
theorem C2_witness :
    ((["Mass_Flow", "Abs_Press"] : List String).length ≤ 13 ∧
      (∀ m ∈ (["Mass_Flow", "Abs_Press"] : List String),
        (List.lookup m sampleStatistics).isSome)) ∧
    (((Device.request sampleStatistics ⟨"A", 10.05, none, none, none⟩
        ⟨[], [["A 0.0 14.7"]]⟩ ["Mass_Flow", "Abs_Press"] 100).2.1).sent =
      [] ++ [dvFrame sampleStatistics ⟨"A", 10.05, none, none, none⟩
        ["Mass_Flow", "Abs_Press"] 100] ∧
    ∃ r, (Device.request sampleStatistics ⟨"A", 10.05, none, none, none⟩
        ⟨[], [["A 0.0 14.7"]]⟩ ["Mass_Flow", "Abs_Press"] 100).2.2 = .ok r) :=
  ⟨⟨by decide, by decide⟩,
    (C2_request_batching_and_overflow sampleStatistics ⟨"A", 10.05, none, none, none⟩
      ⟨[], [["A 0.0 14.7"]]⟩ ["Mass_Flow", "Abs_Press"] 100).2 (by decide) (by decide)⟩

/-- C1: on firmware 8.28 (below 9.00) `FlowController.setpoint(50)` does
not route to the legacy `<id>S 50` wire form: the attribute
`change_setpoint` does not exist (the method is `_change_setpoint`), so
the call raises `AttributeError` with nothing written — while the legacy
method itself, on the same state, would write `AS 50` and return a
standard data frame. -/
theorem C1_setpoint_legacy_routing_is_broken :
    FlowController.setpoint sampleUnits
        ⟨"A", 8.28, some ["Unit_ID", "Mass_Flow_Setpt"], some ["string", "decimal"], none⟩
        ⟨[], [["A 50.0"]]⟩ (.int 50) "" =
      (⟨"A", 8.28, some ["Unit_ID", "Mass_Flow_Setpt"], some ["string", "decimal"], none⟩,
        ⟨[], [["A 50.0"]]⟩, .error (.attributeError "change_setpoint")) ∧
    ((FlowController.change_setpoint sampleUnits
        ⟨"A", 8.28, some ["Unit_ID", "Mass_Flow_Setpt"], some ["string", "decimal"], none⟩
        ⟨[], [["A 50.0"]]⟩ (.int 50)).2.1).sent = ["AS 50"] ∧
    List.lookup "Unit_ID"
      (((FlowController.change_setpoint sampleUnits
        ⟨"A", 8.28, some ["Unit_ID", "Mass_Flow_Setpt"], some ["string", "decimal"], none⟩
        ⟨[], [["A 50.0"]]⟩ (.int 50)).2.2).toOption.getD []) = some (.str "A") := by
  have hv : ((8.28 : ℚ) ≠ 0 ∧ (8.28 : ℚ) < 9.00) := by norm_num
  have h1 : ¬((8.28 : ℚ) ≠ 0 ∧ (8.28 : ℚ) < 4.33) := by norm_num
  have h2 : ¬((8.28 : ℚ) ≠ 0 ∧ (9.00 : ℚ) ≤ 8.28) := by norm_num
  refine ⟨by simp [FlowController.setpoint, hv], ?_, ?_⟩ <;>
    · simp only [FlowController.change_setpoint, h1, h2, if_false]
      decide

/-- C5: `gas()` with both optional arguments omitted on firmware 10.05
does not read back the current gas — `savestr` is only assigned when
`save` is a `bool`, so the call raises `UnboundLocalError` before
anything is written. -/
theorem C5_gas_empty_args_raises :
    Device.gas sampleGases ⟨"A", 10.05, some ["Gas"], some ["string"], none⟩
        ⟨[], []⟩ none none =
      (⟨"A", 10.05, some ["Gas"], some ["string"], none⟩, ⟨[], []⟩,
        .error (.unboundLocal "savestr")) := by
  simp [Device.gas, Device.gasGSBody, truthyStr]

/-- C7: with the schema already discovered and every version gate passed
(firmware 10.05), each of `cancel_valve_hold`, `exhaust`, `hold_valves`
and `hold_valves_closed` raises `UnboundLocalError` on the dead
`gas = gases.get(gas, "")` assignment before its single-letter command is
written: no frame is sent and no data frame is returned. -/
theorem C7_valve_methods_raise_unbound_local :
    FlowController.cancel_valve_hold
        ⟨"A", 10.05, some ["Gas"], some ["string"], none⟩ ⟨[], []⟩ =
      (⟨"A", 10.05, some ["Gas"], some ["string"], none⟩, ⟨[], []⟩,
        .error (.unboundLocal "gas")) ∧
    FlowController.exhaust
        ⟨"A", 10.05, some ["Gas"], some ["string"], none⟩ ⟨[], []⟩ =
      (⟨"A", 10.05, some ["Gas"], some ["string"], none⟩, ⟨[], []⟩,
        .error (.unboundLocal "gas")) ∧
    FlowController.hold_valves
        ⟨"A", 10.05, some ["Gas"], some ["string"], none⟩ ⟨[], []⟩ =
      (⟨"A", 10.05, some ["Gas"], some ["string"], none⟩, ⟨[], []⟩,
        .error (.unboundLocal "gas")) ∧
    FlowController.hold_valves_closed
        ⟨"A", 10.05, some ["Gas"], some ["string"], none⟩ ⟨[], []⟩ =
      (⟨"A", 10.05, some ["Gas"], some ["string"], none⟩, ⟨[], []⟩,
        .error (.unboundLocal "gas")) := by
  have h437 : ¬((10.05 : ℚ) ≠ 0 ∧ (10.05 : ℚ) < 4.37) := by norm_num
  have h507 : ¬((10.05 : ℚ) ≠ 0 ∧ (10.05 : ℚ) < 5.07) := by norm_num
  refine ⟨?_, ?_, ?_, ?_⟩ <;>
    simp [FlowController.cancel_valve_hold, FlowController.exhaust,
      FlowController.hold_valves, FlowController.hold_valves_closed,
      Device.discoverIfNeeded, h437, h507]

/-- C10: `stop_stream(new_id)` writes `@@ <new_id>` but assigns only the
separate `id` attribute — the `_id` used to build every frame is
unchanged; only `change_unit_id(new_id)` writes `<id>@ <new_id>` and
updates `_id`. -/
theorem C10_stop_stream_keeps_address :
    ∀ (s : DeviceState) (c : Comm) (nid nid2 : String),
      ((Device.stop_stream s c (some nid)).1).idStr = s.idStr ∧
      ((Device.stop_stream s c (some nid)).1).idAttr = some nid ∧
      ((Device.stop_stream s c (some nid)).2).sent = c.sent ++ ["@@ " ++ nid] ∧
      ((Device.change_unit_id s c nid2).1).idStr = nid2 ∧
      ((Device.change_unit_id s c nid2).2).sent = c.sent ++ [s.idStr ++ "@ " ++ nid2] := by
  intro s c nid nid2
  refine ⟨rfl, rfl, ?_, rfl, ?_⟩ <;>
    simp [Device.stop_stream, Device.change_unit_id, Comm.write]

section DataFrameLemmas

/-- With the schema already discovered, a data-frame command leaves the
device state alone and writes exactly its one frame, whatever the reply
holds and whether or not parsing succeeds. -/
theorem readDataFrame_comm (s : DeviceState) (c : Comm) (frame : String)
    (fmt : List String) (hf : s.dfFormat = some fmt) :
    (Device.readDataFrame s c frame).1 = s ∧
    ((Device.readDataFrame s c frame).2.1).sent = c.sent ++ [frame] ∧
    ((Device.readDataFrame s c frame).2.1).replies = c.replies.tail := by
  have hdisc : Device.discoverIfNeeded s c = (s, c, .ok ()) := by
    simp [Device.discoverIfNeeded, hf]
  cases hr : c.replies with
  | nil =>
    cases hd : s.dfRet with
    | none => simp [Device.readDataFrame, hdisc, hd, Comm.writeReadline, hr]
    | some types =>
      refine ⟨?_, ?_, ?_⟩ <;>
        · simp only [Device.readDataFrame, hdisc, hd, Comm.writeReadline, hr]
          split <;> simp
  | cons r rs =>
    cases hd : s.dfRet with
    | none => simp [Device.readDataFrame, hdisc, hd, Comm.writeReadline, hr]
    | some types =>
      refine ⟨?_, ?_, ?_⟩ <;>
        · simp only [Device.readDataFrame, hdisc, hd, Comm.writeReadline, hr]
          split <;> simp

end DataFrameLemmas

/-- C6 (amended): below firmware 10.05 `gas` routes to the legacy
`<id>G <code>` wire form exactly when a non-empty gas name is supplied
(whatever `save` is); with the name omitted the `GS` path is taken
instead — see the counterexample. -/
theorem C6_gas_routes_legacy_only_when_name_supplied :
    ∀ (gasesT : List (String × ℕ)) (s : DeviceState) (c : Comm) (g : String)
      (save : Option Bool) (code : ℕ) (fmt : List String),
      s.vers ≠ 0 → s.vers < 10.05 → g ≠ "" →
      List.lookup g gasesT = some code → code ≠ 0 →
      s.dfFormat = some fmt →
      (Device.gas gasesT s c (some g) save).1 = s ∧
      ((Device.gas gasesT s c (some g) save).2.1).sent =
        c.sent ++ [s.idStr ++ "G " ++ toString code] := by
  intro gasesT s c g save code fmt hv0 hv hg hcode hc0 hf
  have hguard : (truthyStr (some g) = true) ∧ s.vers ≠ 0 ∧ s.vers < 10.05 :=
    ⟨by simp [truthyStr, hg], hv0, hv⟩
  have hbody :
      Device.gas gasesT s c (some g) save =
        Device.readDataFrame s c (s.idStr ++ "G " ++ toString code) := by
    simp [Device.gas, hguard, Device.setGasBody, hcode, hc0]
  rw [hbody]
  obtain ⟨h1, h2, _⟩ :=
    readDataFrame_comm s c (s.idStr ++ "G " ++ toString code) fmt hf
  exact ⟨h1, h2⟩

/-- C6 witness: `gas("N2")` on firmware 8.28 writes the legacy frame
`AG 8` (sample gas table: `N2 ↦ 8`). -/
theorem C6_witness :
    (((8.28 : ℚ) ≠ 0 ∧ (8.28 : ℚ) < 10.05 ∧ ("N2" : String) ≠ "" ∧
      List.lookup "N2" sampleGases = some 8 ∧ (8 : ℕ) ≠ 0) ∧
    (Device.gas sampleGases ⟨"A", 8.28, some ["Gas"], some ["string"], none⟩
        ⟨[], []⟩ (some "N2") none).1 =
      ⟨"A", 8.28, some ["Gas"], some ["string"], none⟩ ∧
    ((Device.gas sampleGases ⟨"A", 8.28, some ["Gas"], some ["string"], none⟩
        ⟨[], []⟩ (some "N2") none).2.1).sent =
      [] ++ ["A" ++ "G " ++ toString (8 : ℕ)]) := by
  refine ⟨⟨by norm_num, by norm_num, by decide, by decide, by decide⟩, ?_, ?_⟩
  · exact (C6_gas_routes_legacy_only_when_name_supplied sampleGases
      ⟨"A", 8.28, some ["Gas"], some ["string"], none⟩ ⟨[], []⟩ "N2" none 8 ["Gas"]
      (by norm_num) (by norm_num) (by decide) (by decide) (by decide) rfl).1
  · exact (C6_gas_routes_legacy_only_when_name_supplied sampleGases
      ⟨"A", 8.28, some ["Gas"], some ["string"], none⟩ ⟨[], []⟩ "N2" none 8 ["Gas"]
      (by norm_num) (by norm_num) (by decide) (by decide) (by decide) rfl).2

/-- C6 counterexample: on firmware 8.28 (below 10.05) `gas()` with the
name omitted is *not* routed to the legacy `G` form — the `GS` path is
taken and fails on the unbound `savestr` with nothing written. -/
theorem C6_counterexample_read_call_not_routed :
    Device.gas sampleGases ⟨"A", 8.28, some ["Gas"], some ["string"], none⟩
        ⟨[], []⟩ none none =
      (⟨"A", 8.28, some ["Gas"], some ["string"], none⟩, ⟨[], []⟩,
        .error (.unboundLocal "savestr")) ∧
    ((8.28 : ℚ) ≠ 0 ∧ (8.28 : ℚ) < 10.05) := by
  constructor
  · simp [Device.gas, Device.gasGSBody, truthyStr]
  · norm_num

/-- C8 (amended): `create_gas_mix` past its version gate validates only
the constituent count — more than 5 gases raises `IndexError` before
anything is written, while any slot number and any percentage values
(for known gas names) produce exactly one `<id>GM ...` frame; neither the
[236, 255] slot range nor the 100.00 ± 0.01 percentage sum is checked. -/
theorem C8_create_gas_mix_checks_only_count :
    ∀ (gasesT : List (String × ℕ)) (s : DeviceState) (c : Comm) (name : String)
      (number : ℤ) (gd : List (String × ℚ)),
      ¬(s.vers ≠ 0 ∧ s.vers < 5.00) →
      (gd.length > 5 →
        Device.create_gas_mix gasesT s c name number gd =
          (s, c, .error (.indexError "Too many input gases"))) ∧
      (gd.length ≤ 5 → (∀ p ∈ gd, (List.lookup p.1 gasesT).isSome) →
        ((Device.create_gas_mix gasesT s c name number gd).2.1).sent =
          c.sent ++ [gmFrame gasesT s name number gd] ∧
        ∃ r, (Device.create_gas_mix gasesT s c name number gd).2.2 = .ok r) := by
  intro gasesT s c name number gd hver
  constructor
  · intro h
    simp [Device.create_gas_mix, hver, h]
  · intro hlen hk
    have hnot : ¬ gd.length > 5 := by omega
    have hmix := mixEntries_eq_map gasesT gd hk
    cases hr : c.replies with
    | nil =>
      constructor <;>
        simp [Device.create_gas_mix, hver, hnot, hmix, Comm.writeReadline, hr,
          gmFrame, List.foldl_map]
    | cons r rs =>
      constructor <;>
        simp [Device.create_gas_mix, hver, hnot, hmix, Comm.writeReadline, hr,
          gmFrame, List.foldl_map]

/-- C8 witness: a call satisfying all three claimed constraints —
slot 240 ∈ [236, 255], two constituents, percentages 20 + 80 = 100 —
sends exactly one `GM` frame. -/
theorem C8_witness :
    (¬((10.05 : ℚ) ≠ 0 ∧ (10.05 : ℚ) < 5.00) ∧
      ([("O2", (20 : ℚ)), ("N2", 80)] : List (String × ℚ)).length ≤ 5 ∧
      (∀ p ∈ ([("O2", (20 : ℚ)), ("N2", 80)] : List (String × ℚ)),
        (List.lookup p.1 sampleGases).isSome)) ∧
    ((Device.create_gas_mix sampleGases ⟨"A", 10.05, some ["Gas"], some ["string"], none⟩
        ⟨[], []⟩ "Mix" 240 [("O2", 20), ("N2", 80)]).2.1).sent =
      [] ++ [gmFrame sampleGases ⟨"A", 10.05, some ["Gas"], some ["string"], none⟩
        "Mix" 240 [("O2", 20), ("N2", 80)]] ∧
    ∃ r, (Device.create_gas_mix sampleGases ⟨"A", 10.05, some ["Gas"], some ["string"], none⟩
        ⟨[], []⟩ "Mix" 240 [("O2", 20), ("N2", 80)]).2.2 = .ok r := by
  have h5 : ¬((10.05 : ℚ) ≠ 0 ∧ (10.05 : ℚ) < 5.00) := by norm_num
  refine ⟨⟨h5, by decide, by decide⟩, ?_⟩
  exact (C8_create_gas_mix_checks_only_count sampleGases
    ⟨"A", 10.05, some ["Gas"], some ["string"], none⟩ ⟨[], []⟩ "Mix" 240
    [("O2", 20), ("N2", 80)] h5).2 (by decide) (by decide)

/-- C8 counterexample: slot 100 lies outside [236, 255] and the single
percentage 20 is nowhere near a 100.00 ± 0.01 sum, yet `create_gas_mix`
raises nothing and sends its `GM` frame anyway. -/
theorem C8_counterexample_slot_and_sum_unchecked :
    ((Device.create_gas_mix sampleGases ⟨"A", 10.05, some ["Gas"], some ["string"], none⟩
        ⟨[], []⟩ "MyMix" 100 [("O2", 20)]).2.1).sent =
      [gmFrame sampleGases ⟨"A", 10.05, some ["Gas"], some ["string"], none⟩
        "MyMix" 100 [("O2", 20)]] ∧
    (Device.create_gas_mix sampleGases ⟨"A", 10.05, some ["Gas"], some ["string"], none⟩
        ⟨[], []⟩ "MyMix" 100 [("O2", 20)]).2.2 = .ok [] ∧
    (100 : ℤ) < 236 ∧
    (0.01 : ℚ) < 100 - ([("O2", (20 : ℚ))].map Prod.snd).sum := by
  have h5 : ¬((10.05 : ℚ) ≠ 0 ∧ (10.05 : ℚ) < 5.00) := by norm_num
  have hm : mixEntries sampleGases [("O2", (20 : ℚ))] = some [((20 : ℚ), 11)] := by
    simp [mixEntries, sampleGases, List.lookup]
  have hl : List.lookup "O2" sampleGases = some 11 := by decide
  refine ⟨?_, ?_, by decide, by norm_num⟩ <;>
    simp [Device.create_gas_mix, h5, hm, hl, Comm.writeReadline, gmFrame,
      pySplit, splitOnPred, pyDict, pyUpdate]


section CoerceLemmas

/-- The decimal-column indices are pairwise distinct (they come from
`enumerate`). -/
theorem decimalIndices_nodup (types : List String) :
    (decimalIndices types).Nodup := by
  have h1 : List.Sublist (types.enum.filter (fun p => containsSub "decimal" p.2))
      types.enum :=
    List.filter_sublist _
  have h2 := h1.map Prod.fst
  rw [List.enum_map_fst] at h2
  exact (List.nodup_range _).sublist h2

/-- The `df[index] = float(df[index])` loop succeeds when every indexed
token parses, leaves non-indexed entries untouched and replaces indexed
entries by their parsed floats. -/
theorem coerce_fold (idxs : List ℕ) :
    ∀ (l : List PyVal), idxs.Nodup →
      (∀ i ∈ idxs, ∃ t q, l[i]? = some (.str t) ∧ parsePyFloat t = some q) →
      ∃ out, idxs.foldlM coerceAt l = .ok out ∧ out.length = l.length ∧
        (∀ j, j ∉ idxs → out[j]? = l[j]?) ∧
        (∀ j ∈ idxs, ∃ t q, l[j]? = some (.str t) ∧ parsePyFloat t = some q ∧
          out[j]? = some (.num q)) := by
  induction idxs with
  | nil =>
    intro l _ _
    exact ⟨l, rfl, rfl, fun j _ => rfl, fun j hj => absurd hj (List.not_mem_nil j)⟩
  | cons i rest ih =>
    intro l hnd h
    obtain ⟨t, q, hget, hq⟩ := h i (List.mem_cons_self i rest)
    have hstep : coerceAt l i = .ok (l.set i (.num q)) := by
      simp [coerceAt, hget, hq]
    have hi_len : i < l.length := by
      by_contra hle
      rw [List.getElem?_eq_none (by omega)] at hget
      exact Option.noConfusion hget
    have hi_rest : i ∉ rest := (List.nodup_cons.mp hnd).1
    have hnd' : rest.Nodup := (List.nodup_cons.mp hnd).2
    have h' : ∀ j ∈ rest, ∃ u w,
        (l.set i (.num q))[j]? = some (.str u) ∧ parsePyFloat u = some w := by
      intro j hj
      have hne : i ≠ j := fun e => hi_rest (e ▸ hj)
      obtain ⟨u, w, hg, hp⟩ := h j (List.mem_cons_of_mem i hj)
      exact ⟨u, w, by rw [List.getElem?_set_ne hne]; exact hg, hp⟩
    obtain ⟨out, hfold, hlen, hkeep, hdone⟩ := ih (l.set i (.num q)) hnd' h'
    refine ⟨out, ?_, ?_, ?_, ?_⟩
    · rw [List.foldlM_cons, hstep]
      simpa using hfold
    · rw [hlen, List.length_set]
    · intro j hj
      have hj_rest : j ∉ rest := fun hm => hj (List.mem_cons_of_mem i hm)
      have hij : i ≠ j := fun e => hj (e ▸ List.mem_cons_self i rest)
      rw [hkeep j hj_rest, List.getElem?_set_ne hij]
    · intro j hj
      rcases List.mem_cons.mp hj with he | hm
      · subst he
        refine ⟨t, q, hget, hq, ?_⟩
        rw [hkeep j hi_rest, List.getElem?_set_eq_of_lt _ hi_len]
      · obtain ⟨u, w, hg, hp, ho⟩ := hdone j hm
        have hne : i ≠ j := fun e => hi_rest (e ▸ hm)
        rw [List.getElem?_set_ne hne] at hg
        exact ⟨u, w, hg, hp, ho⟩

end CoerceLemmas

section DictLemmas

/-- `dictSet` on a fresh key appends. -/
theorem dictSet_append (d : List (String × PyVal)) (k : String) (v : PyVal)
    (h : ∀ p ∈ d, p.1 ≠ k) : dictSet d k v = d ++ [(k, v)] := by
  have : ¬ d.any (fun p => p.1 = k) := by
    simp only [List.any_eq_true, decide_eq_true_eq, not_exists, not_and]
    intro p hp
    exact h p hp
  simp [dictSet, this]

/-- Folding fresh, pairwise-distinct keys into a dict is concatenation. -/
theorem pyUpdate_append :
    ∀ (ps d : List (String × PyVal)),
      (∀ p ∈ ps, ∀ p' ∈ d, p.1 ≠ p'.1) → (ps.map Prod.fst).Nodup →
      pyUpdate d ps = d ++ ps := by
  intro ps
  induction ps with
  | nil => intro d _ _; simp [pyUpdate]
  | cons p ps ih =>
    intro d hdisj hnd
    have hset : dictSet d p.1 p.2 = d ++ [p] := by
      rw [dictSet_append]
      intro x hx
      exact fun e => (hdisj p (List.mem_cons_self p ps) x hx) e.symm
    have hpair := List.nodup_cons.mp (show (p.1 :: ps.map Prod.fst).Nodup from hnd)
    have hnd_tail : (ps.map Prod.fst).Nodup := hpair.2
    have hp_not : p.1 ∉ ps.map Prod.fst := hpair.1
    have hdisj' : ∀ x ∈ ps, ∀ p' ∈ d ++ [p], x.1 ≠ p'.1 := by
      intro x hx p' hp'
      rcases List.mem_append.mp hp' with hd | hpp
      · exact hdisj x (List.mem_cons_of_mem p hx) p' hd
      · have : p' = p := by simpa using hpp
        subst this
        intro e
        exact hp_not (e ▸ List.mem_map_of_mem Prod.fst hx)
    have := ih (d ++ [p]) hdisj' hnd_tail
    calc pyUpdate d (p :: ps)
        = pyUpdate (dictSet d p.1 p.2) ps := by simp [pyUpdate]
      _ = pyUpdate (d ++ [p]) ps := by rw [hset]
      _ = (d ++ [p]) ++ ps := this
      _ = d ++ (p :: ps) := by simp

/-- `dict(pairs)` with pairwise-distinct keys is the pair list itself. -/
theorem pyDict_eq_self (ps : List (String × PyVal))
    (h : (ps.map Prod.fst).Nodup) : pyDict ps = ps := by
  simpa [pyDict] using pyUpdate_append ps [] (by simp) h

/-- Zipping stops at the shorter list: the appended tail is invisible. -/
theorem zip_append_left {β : Type} :
    ∀ (a b : List String) (v : List β), v.length ≤ a.length →
      (a ++ b).zip v = a.zip v := by
  intro a
  induction a with
  | nil =>
    intro b v hv
    have : v = [] := List.eq_nil_of_length_eq_zero (Nat.le_zero.mp (by simpa using hv))
    simp [this]
  | cons x xs ih =>
    intro b v hv
    cases v with
    | nil => simp
    | cons y ys =>
      simp only [List.cons_append, List.zip_cons_cons]
      rw [ih b ys (by simpa using hv)]

end DictLemmas

/-- C4 (amended): with the schema discovered — full format `stand ++ ext`
with the standard fields `stand` first — a `poll` whose reply has one
token per standard field and whose decimal-column tokens parse returns
the mapping whose keys are exactly the standard field names in discovery
order; decimal columns are floats, and every other column keeps its raw
token — in particular a `--` token is returned as the string `"--"`, not
as `None` (see the counterexample). -/
theorem C4_poll_standard_frame :
    ∀ (s : DeviceState) (sent0 : List String) (line : String)
      (rest : List (List String)) (stand ext types : List String),
      s.dfFormat = some (stand ++ ext) →
      s.dfRet = some types →
      stand.Nodup →
      (pySplit line).length = stand.length →
      (∀ i ∈ decimalIndices types, ∃ t q,
        (pySplit line)[i]? = some t ∧ parsePyFloat t = some q) →
      ∃ vals,
        Device.poll s ⟨sent0, [line] :: rest⟩ =
          (s, ⟨sent0 ++ [s.idStr], rest⟩, .ok (stand.zip vals)) ∧
        vals.length = stand.length ∧
        (stand.zip vals).map Prod.fst = stand ∧
        (∀ j, j ∉ decimalIndices types →
          vals[j]? = ((pySplit line).map PyVal.str)[j]?) ∧
        (∀ j ∈ decimalIndices types, ∃ t q,
          (pySplit line)[j]? = some t ∧ parsePyFloat t = some q ∧
          vals[j]? = some (.num q)) := by
  intro s sent0 line rest stand ext types hf hd hnd hlen hdec
  have hmap : ∀ i ∈ decimalIndices types, ∃ t q,
      ((pySplit line).map PyVal.str)[i]? = some (.str t) ∧ parsePyFloat t = some q := by
    intro i hi
    obtain ⟨t, q, hg, hp⟩ := hdec i hi
    exact ⟨t, q, by rw [List.getElem?_map, hg]; rfl, hp⟩
  obtain ⟨out, hfold, hlen_out, hkeep, hdone⟩ :=
    coerce_fold (decimalIndices types) ((pySplit line).map PyVal.str)
      (decimalIndices_nodup types) hmap
  have hlen2 : out.length = stand.length := by
    rw [hlen_out, List.length_map]
    exact hlen
  have hdisc : Device.discoverIfNeeded s ⟨sent0, [line] :: rest⟩ =
      (s, ⟨sent0, [line] :: rest⟩, .ok ()) := by
    simp [Device.discoverIfNeeded, hf]
  have hzip : (stand ++ ext).zip out = stand.zip out :=
    zip_append_left stand ext out (le_of_eq hlen2)
  have hfst : (stand.zip out).map Prod.fst = stand :=
    List.map_fst_zip stand out (le_of_eq hlen2.symm)
  have hpoll : Device.poll s ⟨sent0, [line] :: rest⟩ =
      (s, ⟨sent0 ++ [s.idStr], rest⟩, .ok (stand.zip out)) := by
    simp only [Device.poll, Device.readDataFrame, hdisc, hd, Comm.writeReadline,
      List.headD, coerceDecimals, hfold]
    simp [hf, hzip, pyDict_eq_self (stand.zip out) (by rw [hfst]; exact hnd)]
  refine ⟨out, hpoll, hlen2, hfst, hkeep, ?_⟩
  intro j hj
  obtain ⟨t, q, hg, hp, ho⟩ := hdone j hj
  rw [List.getElem?_map] at hg
  obtain ⟨a, ha, hat⟩ := Option.map_eq_some'.mp hg
  cases hat
  exact ⟨t, q, by simpa using ha, hp, ho⟩

/-- C4 witness: poll reply `+014.70 Air` against the discovered schema
`[Abs_Press (decimal), Gas (string)]` yields keys `[Abs_Press, Gas]` in
order with `Abs_Press` a float. -/
theorem C4_witness :
    ∃ vals,
      Device.poll ⟨"A", 10.05, some ["Abs_Press", "Gas"], some ["decimal", "string"], none⟩
          ⟨[], [["+014.70 Air"]]⟩ =
        (⟨"A", 10.05, some ["Abs_Press", "Gas"], some ["decimal", "string"], none⟩,
          ⟨[] ++ ["A"], []⟩, .ok ((["Abs_Press", "Gas"] : List String).zip vals)) ∧
      vals.length = (["Abs_Press", "Gas"] : List String).length ∧
      ((["Abs_Press", "Gas"] : List String).zip vals).map Prod.fst = ["Abs_Press", "Gas"] ∧
      (∀ j, j ∉ decimalIndices ["decimal", "string"] →
        vals[j]? = ((pySplit "+014.70 Air").map PyVal.str)[j]?) ∧
      (∀ j ∈ decimalIndices ["decimal", "string"], ∃ t q,
        (pySplit "+014.70 Air")[j]? = some t ∧ parsePyFloat t = some q ∧
        vals[j]? = some (.num q)) := by
  have hpar : (parsePyFloat "+014.70").isSome := by decide
  obtain ⟨q, hq⟩ := Option.isSome_iff_exists.mp hpar
  have hdec : ∀ i ∈ decimalIndices ["decimal", "string"], ∃ t w,
      (pySplit "+014.70 Air")[i]? = some t ∧ parsePyFloat t = some w := by
    intro i hi
    have hsing : decimalIndices ["decimal", "string"] = [0] := by decide
    rw [hsing] at hi
    have hi0 : i = 0 := List.mem_singleton.mp hi
    subst hi0
    exact ⟨"+014.70", q, by decide, hq⟩
  exact C4_poll_standard_frame
    ⟨"A", 10.05, some ["Abs_Press", "Gas"], some ["decimal", "string"], none⟩
    [] "+014.70 Air" [] ["Abs_Press", "Gas"] [] ["decimal", "string"]
    rfl rfl (by decide) (by decide) hdec

/-- C4 counterexample: a `--` token in a non-decimal column of a poll
reply is returned as the literal string `"--"`, not mapped to `None` —
`poll` has no `--` handling (only `request` does). -/
theorem C4_counterexample_dashes_not_null :
    List.lookup "Gas"
      (((Device.poll
        ⟨"A", 10.05, some ["Abs_Press", "Gas"], some ["decimal", "string"], none⟩
        ⟨[], [["+014.70 --"]]⟩).2.2).toOption.getD []) = some (.str "--") ∧
    PyVal.str "--" ≠ PyVal.null := by
  constructor
  · decide
  · decide

section GetLemmas

/-- When every measurement is a recognized statistic, the first pass of
`Device.get` only accumulates them into `reqs` and touches nothing. -/
theorem getScan_all_stats (statsT gasesT : List (String × ℕ)) :
    ∀ (ms : List String) (resp : List (String × PyVal)) (flag : Bool)
      (reqs : List String) (s : DeviceState) (c : Comm),
      (∀ m ∈ ms, (List.lookup m statsT).isSome) →
      Device.getScan statsT gasesT ms resp flag reqs s c =
        (s, c, .ok (resp, reqs ++ ms)) := by
  intro ms
  induction ms with
  | nil => intro resp flag reqs s c _; simp [Device.getScan]
  | cons m rest ih =>
    intro resp flag reqs s c h
    have hm := h m (List.mem_cons_self m rest)
    rw [Device.getScan, if_pos hm,
      ih resp flag (reqs ++ [m]) s c (fun x hx => h x (List.mem_cons_of_mem m hx))]
    simp

/-- Once the single poll has fired (`flag = 1`), unrecognized non-`GAS`
names are skipped without any further traffic. -/
theorem getScan_skip (statsT gasesT : List (String × ℕ)) :
    ∀ (ms : List String) (resp : List (String × PyVal)) (reqs : List String)
      (s : DeviceState) (c : Comm),
      (∀ m ∈ ms, List.lookup m statsT = none ∧ strUpper m ≠ "GAS") →
      Device.getScan statsT gasesT ms resp true reqs s c = (s, c, .ok (resp, reqs)) := by
  intro ms
  induction ms with
  | nil => intro resp reqs s c _; simp [Device.getScan]
  | cons m rest ih =>
    intro resp reqs s c h
    obtain ⟨hnone, hgas⟩ := h m (List.mem_cons_self m rest)
    rw [Device.getScan, if_neg (by simp [hnone]), if_neg hgas, if_neg (by simp)]
    exact ih resp reqs s c (fun x hx => h x (List.mem_cons_of_mem m hx))

/-- The controller variant of `getScan_all_stats` (`if meas and meas in
statistics` needs the names non-empty as well). -/
theorem fcGetScan_all_stats (statsT gasesT unitsT : List (String × ℕ)) :
    ∀ (ms : List String) (resp : List (String × PyVal)) (flag : Bool)
      (reqs : List String) (s : DeviceState) (c : Comm),
      (∀ m ∈ ms, m ≠ "" ∧ (List.lookup m statsT).isSome) →
      FlowController.getScan statsT gasesT unitsT ms resp flag reqs s c =
        (s, c, .ok (resp, reqs ++ ms)) := by
  intro ms
  induction ms with
  | nil => intro resp flag reqs s c _; simp [FlowController.getScan]
  | cons m rest ih =>
    intro resp flag reqs s c h
    have hm := h m (List.mem_cons_self m rest)
    rw [FlowController.getScan, if_pos hm,
      ih resp flag (reqs ++ [m]) s c (fun x hx => h x (List.mem_cons_of_mem m hx))]
    simp

/-- The controller variant of `getScan_skip`. -/
theorem fcGetScan_skip (statsT gasesT unitsT : List (String × ℕ)) :
    ∀ (ms : List String) (resp : List (String × PyVal)) (reqs : List String)
      (s : DeviceState) (c : Comm),
      (∀ m ∈ ms, List.lookup m statsT = none ∧ strUpper m ≠ "GAS" ∧
        strUpper m ≠ "SETPOINT" ∧ strUpper m ≠ "STPT") →
      FlowController.getScan statsT gasesT unitsT ms resp true reqs s c =
        (s, c, .ok (resp, reqs)) := by
  intro ms
  induction ms with
  | nil => intro resp reqs s c _; simp [FlowController.getScan]
  | cons m rest ih =>
    intro resp reqs s c h
    obtain ⟨hnone, hgas, hsp, hst⟩ := h m (List.mem_cons_self m rest)
    rw [FlowController.getScan, if_neg (by simp [hnone]), if_neg hgas,
      if_neg (by simp [hsp, hst]), if_neg (by simp)]
    exact ih resp reqs s c (fun x hx => h x (List.mem_cons_of_mem m hx))

/-- Bounds for the `while i * 13 < len(reqs)` slices: every chunk has at
most 13 elements drawn from the input, and there are `⌈len/13⌉` chunks. -/
theorem chunksOf_props :
    ∀ (n : ℕ) (l : List String), l.length ≤ n →
      (∀ ch ∈ chunksOf l, ch.length ≤ 13 ∧ ∀ m ∈ ch, m ∈ l) ∧
      (chunksOf l).length = (l.length + 12) / 13 := by
  intro n
  induction n with
  | zero =>
    intro l hl
    have : l = [] := List.eq_nil_of_length_eq_zero (Nat.le_zero.mp hl)
    subst this
    simp [chunksOf]
  | succ n ih =>
    intro l hl
    cases l with
    | nil => simp [chunksOf]
    | cons x xs =>
      have hlen_drop : ((x :: xs).drop 13).length ≤ n := by
        simp only [List.length_drop, List.length_cons]
        simp only [List.length_cons] at hl
        omega
      obtain ⟨hmem, hcount⟩ := ih ((x :: xs).drop 13) hlen_drop
      rw [chunksOf]
      constructor
      · intro ch hch
        rcases List.mem_cons.mp hch with he | hm
        · subst he
          exact ⟨by simp [List.length_take_le],
            fun m hm => List.mem_of_mem_take hm⟩
        · obtain ⟨h13, hsub⟩ := hmem ch hm
          exact ⟨h13, fun m hmm => List.mem_of_mem_drop (hsub m hmm)⟩
      · simp only [List.length_cons, hcount, List.length_drop, List.length_cons]
        omega

/-- The second pass of the aggregate `get` leaves the state alone and
writes exactly one `DV` frame per chunk. -/
theorem requestLoop_frames (statsT : List (String × ℕ)) :
    ∀ (chs : List (List String)) (resp : List (String × PyVal))
      (s : DeviceState) (c : Comm),
      (∀ ch ∈ chs, ch.length ≤ 13 ∧ ∀ m ∈ ch, (List.lookup m statsT).isSome) →
      (Device.requestLoop statsT chs resp s c).1 = s ∧
      ((Device.requestLoop statsT chs resp s c).2.1).sent =
        c.sent ++ chs.map (fun ch => dvFrame statsT s ch 1) ∧
      ∃ r, (Device.requestLoop statsT chs resp s c).2.2 = .ok r := by
  intro chs
  induction chs with
  | nil => intro resp s c _; simp [Device.requestLoop]
  | cons ch chs ih =>
    intro resp s c h
    obtain ⟨h13, hk⟩ := h ch (List.mem_cons_self ch chs)
    obtain ⟨hs, hsent, hrep, r, hr⟩ := request_sent_ok statsT s c ch 1 h13 hk
    have htup : Device.request statsT s c ch 1 =
        ((Device.request statsT s c ch 1).1,
         (Device.request statsT s c ch 1).2.1,
         (Device.request statsT s c ch 1).2.2) := rfl
    rw [hs, hr] at htup
    rw [Device.requestLoop, htup]
    obtain ⟨hs', hsent', hok'⟩ :=
      ih (pyUpdate resp r) s ((Device.request statsT s c ch 1).2.1)
        (fun x hx => h x (List.mem_cons_of_mem ch hx))
    refine ⟨hs', ?_, hok'⟩
    rw [hsent', hsent]
    simp

end GetLemmas

/-- An unrecognized, non-`GAS` first name with the poll flag still unset
fires the single `poll`; the remaining unrecognized names are skipped. -/
theorem getScan_poll (statsT gasesT : List (String × ℕ)) (m : String)
    (rest : List String) (resp : List (String × PyVal)) (reqs : List String)
    (s : DeviceState) (c : Comm)
    (hm_none : List.lookup m statsT = none) (hm_gas : strUpper m ≠ "GAS")
    (hrest : ∀ x ∈ rest, List.lookup x statsT = none ∧ strUpper x ≠ "GAS") :
    Device.getScan statsT gasesT (m :: rest) resp false reqs s c =
      (match Device.poll s c with
       | (s', c', .ok d) => (s', c', .ok (pyUpdate resp d, reqs))
       | (s', c', .error e) => (s', c', .error e)) := by
  rcases hp : Device.poll s c with ⟨s1, c1, res⟩
  cases res with
  | error e => simp [Device.getScan, hm_none, hm_gas, hp]
  | ok d => simp [Device.getScan, hm_none, hm_gas, hp,
      getScan_skip statsT gasesT rest (pyUpdate resp d) reqs s1 c1 hrest]

/-- Controller variant of `getScan_poll`. -/
theorem fcGetScan_poll (statsT gasesT unitsT : List (String × ℕ)) (m : String)
    (rest : List String) (resp : List (String × PyVal)) (reqs : List String)
    (s : DeviceState) (c : Comm)
    (hm_none : List.lookup m statsT = none) (hm_gas : strUpper m ≠ "GAS")
    (hm_sp : strUpper m ≠ "SETPOINT") (hm_st : strUpper m ≠ "STPT")
    (hrest : ∀ x ∈ rest, List.lookup x statsT = none ∧ strUpper x ≠ "GAS" ∧
      strUpper x ≠ "SETPOINT" ∧ strUpper x ≠ "STPT") :
    FlowController.getScan statsT gasesT unitsT (m :: rest) resp false reqs s c =
      (match Device.poll s c with
       | (s', c', .ok d) => (s', c', .ok (pyUpdate resp d, reqs))
       | (s', c', .error e) => (s', c', .error e)) := by
  rcases hp : Device.poll s c with ⟨s1, c1, res⟩
  cases res with
  | error e => simp [FlowController.getScan, hm_none, hm_gas, hm_sp, hm_st, hp]
  | ok d => simp [FlowController.getScan, hm_none, hm_gas, hm_sp, hm_st, hp,
      fcGetScan_skip statsT gasesT unitsT rest (pyUpdate resp d) reqs s1 c1 hrest]

/-- C3 (amended): the aggregate `get` — for `Device.get` and the
`FlowController.get` override — issues exactly `⌈n/13⌉` `DV` frames (and
nothing else) for a list of `n` recognized statistic names, and exactly
one poll frame (the bare unit id) and no `DV` frame for a list — the
empty list included — containing no recognized statistic name and no
synthetic name (`GAS`; additionally `SETPOINT`/`STPT` on controllers).
A list containing a synthetic name triggers `gas()`/`setpoint()` instead
of `poll` — see the counterexample. -/
theorem C3_get_batches_and_poll :
    ∀ (statsT gasesT unitsT : List (String × ℕ)) (s : DeviceState) (c : Comm)
      (meas fmt types : List String),
    (meas ≠ [] → (∀ m ∈ meas, (List.lookup m statsT).isSome) →
      ((Device.get statsT gasesT s c meas).2.1).sent =
        c.sent ++ (chunksOf meas).map (fun ch => dvFrame statsT s ch 1) ∧
      ((chunksOf meas).map (fun ch => dvFrame statsT s ch 1)).length =
        (meas.length + 12) / 13 ∧
      ∃ r, (Device.get statsT gasesT s c meas).2.2 = .ok r) ∧
    (s.dfFormat = some fmt → s.dfRet = some types →
      List.lookup "@" statsT = none →
      (∀ m ∈ meas, List.lookup m statsT = none ∧ strUpper m ≠ "GAS") →
      ((Device.get statsT gasesT s c meas).2.1).sent = c.sent ++ [s.idStr]) ∧
    (meas ≠ [] → (∀ m ∈ meas, m ≠ "" ∧ (List.lookup m statsT).isSome) →
      ((FlowController.get statsT gasesT unitsT s c meas).2.1).sent =
        c.sent ++ (chunksOf meas).map (fun ch => dvFrame statsT s ch 1) ∧
      ((chunksOf meas).map (fun ch => dvFrame statsT s ch 1)).length =
        (meas.length + 12) / 13 ∧
      ∃ r, (FlowController.get statsT gasesT unitsT s c meas).2.2 = .ok r) ∧
    (s.dfFormat = some fmt → s.dfRet = some types →
      List.lookup "@" statsT = none →
      (∀ m ∈ meas, List.lookup m statsT = none ∧ strUpper m ≠ "GAS" ∧
        strUpper m ≠ "SETPOINT" ∧ strUpper m ≠ "STPT") →
      ((FlowController.get statsT gasesT unitsT s c meas).2.1).sent =
        c.sent ++ [s.idStr]) := by
  intro statsT gasesT unitsT s c meas fmt types
  refine ⟨?_, ?_, ?_, ?_⟩
  -- (a) Device.get, all recognized
  · intro hne hk
    have hempty : meas.isEmpty = false := by
      cases meas with
      | nil => exact absurd rfl hne
      | cons m rest => rfl
    obtain ⟨hmem, hcount⟩ := chunksOf_props meas.length meas le_rfl
    have hloop := requestLoop_frames statsT (chunksOf meas) [] s c
      (fun ch hch => ⟨(hmem ch hch).1, fun m hm => hk m ((hmem ch hch).2 m hm)⟩)
    rw [Device.get, hempty]
    simp only [Bool.false_eq_true, if_false,
      getScan_all_stats statsT gasesT meas [] false [] s c hk, List.nil_append]
    refine ⟨hloop.2.1, by simp [hcount], hloop.2.2⟩
  -- (b) Device.get, nothing recognized, no GAS
  · intro hf hd hat h
    have hall : ∀ m ∈ (if meas.isEmpty then ["@"] else meas),
        List.lookup m statsT = none ∧ strUpper m ≠ "GAS" := by
      cases meas with
      | nil =>
        intro m hm
        have : m = "@" := by simpa using hm
        subst this
        exact ⟨hat, by decide⟩
      | cons x rest => simpa using h
    have hne2 : (if meas.isEmpty then ["@"] else meas) ≠ [] := by
      cases meas <;> simp
    obtain ⟨hps, hpsent, hprep⟩ := readDataFrame_comm s c s.idStr fmt hf
    cases hmeas : (if meas.isEmpty then ["@"] else meas) with
    | nil => exact absurd hmeas hne2
    | cons m rest =>
      obtain ⟨hm_none, hm_gas⟩ := hall m (hmeas ▸ List.mem_cons_self m rest)
      have hrest : ∀ x ∈ rest, List.lookup x statsT = none ∧ strUpper x ≠ "GAS" :=
        fun x hx => hall x (hmeas ▸ List.mem_cons_of_mem m hx)
      rw [Device.get, hmeas,
        getScan_poll statsT gasesT m rest [] [] s c hm_none hm_gas hrest]
      rcases hp : Device.poll s c with ⟨s1, c1, res⟩
      have hsent1 : c1.sent = c.sent ++ [s.idStr] := by
        have := hpsent
        rw [show Device.readDataFrame s c s.idStr = Device.poll s c from rfl, hp] at this
        exact this
      cases res with
      | error e => simpa using hsent1
      | ok d => simpa [chunksOf, Device.requestLoop] using hsent1
  -- (a') FlowController.get, all recognized
  · intro hne hk
    have hempty : meas.isEmpty = false := by
      cases meas with
      | nil => exact absurd rfl hne
      | cons m rest => rfl
    obtain ⟨hmem, hcount⟩ := chunksOf_props meas.length meas le_rfl
    have hloop := requestLoop_frames statsT (chunksOf meas) [] s c
      (fun ch hch => ⟨(hmem ch hch).1, fun m hm => (hk m ((hmem ch hch).2 m hm)).2⟩)
    rw [FlowController.get, hempty]
    simp only [Bool.false_eq_true, if_false,
      fcGetScan_all_stats statsT gasesT unitsT meas [] false [] s c hk, List.nil_append]
    refine ⟨hloop.2.1, by simp [hcount], hloop.2.2⟩
  -- (b') FlowController.get, nothing recognized, no synthetic names
  · intro hf hd hat h
    have hall : ∀ m ∈ (if meas.isEmpty then ["@"] else meas),
        List.lookup m statsT = none ∧ strUpper m ≠ "GAS" ∧
        strUpper m ≠ "SETPOINT" ∧ strUpper m ≠ "STPT" := by
      cases meas with
      | nil =>
        intro m hm
        have : m = "@" := by simpa using hm
        subst this
        exact ⟨hat, by decide, by decide, by decide⟩
      | cons x rest => simpa using h
    have hne2 : (if meas.isEmpty then ["@"] else meas) ≠ [] := by
      cases meas <;> simp
    obtain ⟨hps, hpsent, hprep⟩ := readDataFrame_comm s c s.idStr fmt hf
    cases hmeas : (if meas.isEmpty then ["@"] else meas) with
    | nil => exact absurd hmeas hne2
    | cons m rest =>
      obtain ⟨hm_none, hm_gas, hm_sp, hm_st⟩ := hall m (hmeas ▸ List.mem_cons_self m rest)
      have hrest : ∀ x ∈ rest, List.lookup x statsT = none ∧ strUpper x ≠ "GAS" ∧
          strUpper x ≠ "SETPOINT" ∧ strUpper x ≠ "STPT" :=
        fun x hx => hall x (hmeas ▸ List.mem_cons_of_mem m hx)
      rw [FlowController.get, hmeas,
        fcGetScan_poll statsT gasesT unitsT m rest [] [] s c hm_none hm_gas hm_sp hm_st hrest]
      rcases hp : Device.poll s c with ⟨s1, c1, res⟩
      have hsent1 : c1.sent = c.sent ++ [s.idStr] := by
        have := hpsent
        rw [show Device.readDataFrame s c s.idStr = Device.poll s c from rfl, hp] at this
        exact this
      cases res with
      | error e => simpa using hsent1
      | ok d => simpa [chunksOf, Device.requestLoop] using hsent1

/-- C3 witness: fourteen recognized names produce `⌈14/13⌉ = 2` `DV`
frames; the empty list produces exactly the one poll frame `A`. -/
theorem C3_witness :
    ((["T01", "T02", "T03", "T04", "T05", "T06", "T07", "T08", "T09", "T10",
        "T11", "T12", "T13", "T14"] : List String) ≠ [] ∧
      (∀ m ∈ (["T01", "T02", "T03", "T04", "T05", "T06", "T07", "T08", "T09",
        "T10", "T11", "T12", "T13", "T14"] : List String),
        (List.lookup m [("T01", 1), ("T02", 2), ("T03", 3), ("T04", 4), ("T05", 5),
          ("T06", 6), ("T07", 7), ("T08", 8), ("T09", 9), ("T10", 10), ("T11", 11),
          ("T12", 12), ("T13", 13), ("T14", 14)]).isSome)) ∧
    (((Device.get [("T01", 1), ("T02", 2), ("T03", 3), ("T04", 4), ("T05", 5),
          ("T06", 6), ("T07", 7), ("T08", 8), ("T09", 9), ("T10", 10), ("T11", 11),
          ("T12", 12), ("T13", 13), ("T14", 14)] sampleGases
        ⟨"A", 10.05, some ["Gas"], some ["string"], none⟩ ⟨[], []⟩
        ["T01", "T02", "T03", "T04", "T05", "T06", "T07", "T08", "T09", "T10",
          "T11", "T12", "T13", "T14"]).2.1).sent =
      [] ++ (chunksOf ["T01", "T02", "T03", "T04", "T05", "T06", "T07", "T08",
          "T09", "T10", "T11", "T12", "T13", "T14"]).map
        (fun ch => dvFrame [("T01", 1), ("T02", 2), ("T03", 3), ("T04", 4), ("T05", 5),
          ("T06", 6), ("T07", 7), ("T08", 8), ("T09", 9), ("T10", 10), ("T11", 11),
          ("T12", 12), ("T13", 13), ("T14", 14)]
          ⟨"A", 10.05, some ["Gas"], some ["string"], none⟩ ch 1) ∧
      ((chunksOf ["T01", "T02", "T03", "T04", "T05", "T06", "T07", "T08", "T09",
          "T10", "T11", "T12", "T13", "T14"]).map
        (fun ch => dvFrame [("T01", 1), ("T02", 2), ("T03", 3), ("T04", 4), ("T05", 5),
          ("T06", 6), ("T07", 7), ("T08", 8), ("T09", 9), ("T10", 10), ("T11", 11),
          ("T12", 12), ("T13", 13), ("T14", 14)]
          ⟨"A", 10.05, some ["Gas"], some ["string"], none⟩ ch 1)).length =
        ((["T01", "T02", "T03", "T04", "T05", "T06", "T07", "T08", "T09", "T10",
          "T11", "T12", "T13", "T14"] : List String).length + 12) / 13 ∧
      ∃ r, (Device.get [("T01", 1), ("T02", 2), ("T03", 3), ("T04", 4), ("T05", 5),
          ("T06", 6), ("T07", 7), ("T08", 8), ("T09", 9), ("T10", 10), ("T11", 11),
          ("T12", 12), ("T13", 13), ("T14", 14)] sampleGases
        ⟨"A", 10.05, some ["Gas"], some ["string"], none⟩ ⟨[], []⟩
        ["T01", "T02", "T03", "T04", "T05", "T06", "T07", "T08", "T09", "T10",
          "T11", "T12", "T13", "T14"]).2.2 = .ok r) ∧
    ((Device.get sampleStatistics sampleGases
        ⟨"A", 10.05, some ["Gas"], some ["string"], none⟩ ⟨[], []⟩ []).2.1).sent =
      [] ++ ["A"] := by
  refine ⟨⟨by decide, by decide⟩, ?_, ?_⟩
  · exact (C3_get_batches_and_poll [("T01", 1), ("T02", 2), ("T03", 3), ("T04", 4),
      ("T05", 5), ("T06", 6), ("T07", 7), ("T08", 8), ("T09", 9), ("T10", 10),
      ("T11", 11), ("T12", 12), ("T13", 13), ("T14", 14)] sampleGases sampleUnits
      ⟨"A", 10.05, some ["Gas"], some ["string"], none⟩ ⟨[], []⟩
      ["T01", "T02", "T03", "T04", "T05", "T06", "T07", "T08", "T09", "T10",
        "T11", "T12", "T13", "T14"] ["Gas"] ["string"]).1 (by decide) (by decide)
  · exact (C3_get_batches_and_poll sampleStatistics sampleGases sampleUnits
      ⟨"A", 10.05, some ["Gas"], some ["string"], none⟩ ⟨[], []⟩ [] ["Gas"]
      ["string"]).2.1 rfl rfl (by decide)
      (fun m hm => absurd hm (List.not_mem_nil m))

/-- C3 counterexample: `get(["GAS"])` — a list with no recognized
statistic names — issues no poll frame at all: the synthetic `GAS` name
routes to `gas()`, which fails on the unbound `savestr` before writing. -/
theorem C3_counterexample_gas_list_issues_no_poll :
    ((Device.get sampleStatistics sampleGases
        ⟨"A", 10.05, some ["Gas"], some ["string"], none⟩ ⟨[], []⟩ ["GAS"]).2.1).sent = [] ∧
    (Device.get sampleStatistics sampleGases
        ⟨"A", 10.05, some ["Gas"], some ["string"], none⟩ ⟨[], []⟩ ["GAS"]).2.2 =
      .error (.unboundLocal "savestr") ∧
    List.lookup "GAS" sampleStatistics = none := by
  refine ⟨by decide, by decide, by decide⟩

section SortLemmas

/-- In the stably sorted key list, an element whose synthesized key is
strictly below another's appears strictly before every occurrence of the
other. -/
theorem sortKeys_precedes (ks : List String) (a b : String)
    (hab : (DAQLogging.key_func a).toList < (DAQLogging.key_func b).toList)
    (i j : ℕ) (hi : i < (DAQLogging.sortKeys ks).length)
    (hj : j < (DAQLogging.sortKeys ks).length)
    (ha : (DAQLogging.sortKeys ks).get ⟨i, hi⟩ = a)
    (hb : (DAQLogging.sortKeys ks).get ⟨j, hj⟩ = b) : i < j := by
  have htot : IsTotal String
      (fun x y => (DAQLogging.key_func x).toList ≤ (DAQLogging.key_func y).toList) :=
    ⟨fun x y => le_total _ _⟩
  have htrans : IsTrans String
      (fun x y => (DAQLogging.key_func x).toList ≤ (DAQLogging.key_func y).toList) :=
    ⟨fun x y z hxy hyz => le_trans hxy hyz⟩
  have hsorted : List.Sorted
      (fun x y => (DAQLogging.key_func x).toList ≤ (DAQLogging.key_func y).toList)
      (DAQLogging.sortKeys ks) :=
    List.sorted_insertionSort
      (fun x y => (DAQLogging.key_func x).toList ≤ (DAQLogging.key_func y).toList) ks
  rcases lt_trichotomy i j with h | h | h
  · exact h
  · exfalso
    subst h
    rw [ha] at hb
    subst hb
    exact lt_irrefl _ hab
  · exfalso
    have hpair := List.pairwise_iff_get.mp hsorted ⟨j, hj⟩ ⟨i, hi⟩ h
    rw [ha, hb] at hpair
    exact absurd hpair (not_le.mpr hab)

end SortLemmas

/-- C9 (amended): `_key_func` synthesizes `chr(0)`, `chr(1)`, `chr(2)`
for `Request Sent`, `Response Received` and (case-insensitively)
`unit_id`, and maps every other key to itself; in the sorted column list
those three therefore come first, second and third ahead of every other
key that compares above `chr(2)` — i.e. every non-empty key whose first
character has code point ≥ 3, which covers all printable column names.
(A key comparing below `chr(2)`, such as the empty string, sorts ahead of
them — see the counterexample.) -/
theorem C9_key_func_ordering :
    ∀ (ks : List String) (i j : ℕ)
      (hi : i < (DAQLogging.sortKeys ks).length)
      (hj : j < (DAQLogging.sortKeys ks).length),
    DAQLogging.key_func "Request Sent" = String.mk [Char.ofNat 0] ∧
    DAQLogging.key_func "Response Received" = String.mk [Char.ofNat 1] ∧
    (∀ u, strLower u = "unit_id" → DAQLogging.key_func u = String.mk [Char.ofNat 2]) ∧
    (∀ k, k ≠ "Request Sent" → k ≠ "Response Received" → strLower k ≠ "unit_id" →
      DAQLogging.key_func k = k) ∧
    ((DAQLogging.sortKeys ks).get ⟨i, hi⟩ = "Request Sent" →
      ((DAQLogging.sortKeys ks).get ⟨j, hj⟩ = "Response Received" ∨
       strLower ((DAQLogging.sortKeys ks).get ⟨j, hj⟩) = "unit_id" ∨
       (DAQLogging.key_func ((DAQLogging.sortKeys ks).get ⟨j, hj⟩) =
          (DAQLogging.sortKeys ks).get ⟨j, hj⟩ ∧
        (String.mk [Char.ofNat 2]).toList < ((DAQLogging.sortKeys ks).get ⟨j, hj⟩).toList)) →
      i < j) ∧
    ((DAQLogging.sortKeys ks).get ⟨i, hi⟩ = "Response Received" →
      (strLower ((DAQLogging.sortKeys ks).get ⟨j, hj⟩) = "unit_id" ∨
       (DAQLogging.key_func ((DAQLogging.sortKeys ks).get ⟨j, hj⟩) =
          (DAQLogging.sortKeys ks).get ⟨j, hj⟩ ∧
        (String.mk [Char.ofNat 2]).toList < ((DAQLogging.sortKeys ks).get ⟨j, hj⟩).toList)) →
      i < j) ∧
    (strLower ((DAQLogging.sortKeys ks).get ⟨i, hi⟩) = "unit_id" →
      (DAQLogging.key_func ((DAQLogging.sortKeys ks).get ⟨j, hj⟩) =
         (DAQLogging.sortKeys ks).get ⟨j, hj⟩ ∧
       (String.mk [Char.ofNat 2]).toList < ((DAQLogging.sortKeys ks).get ⟨j, hj⟩).toList) →
      i < j) := by
  intro ks i j hi hj
  have hRS : DAQLogging.key_func "Request Sent" = String.mk [Char.ofNat 0] := by decide
  have hRR : DAQLogging.key_func "Response Received" = String.mk [Char.ofNat 1] := by decide
  have hUID : ∀ u, strLower u = "unit_id" →
      DAQLogging.key_func u = String.mk [Char.ofNat 2] := by
    intro u hu
    have h1 : u ≠ "Request Sent" := by
      intro e; rw [e] at hu; exact absurd hu (by decide)
    have h2 : u ≠ "Response Received" := by
      intro e; rw [e] at hu; exact absurd hu (by decide)
    simp [DAQLogging.key_func, h1, h2, hu]
  have hID : ∀ k, k ≠ "Request Sent" → k ≠ "Response Received" →
      strLower k ≠ "unit_id" → DAQLogging.key_func k = k := by
    intro k h1 h2 h3
    simp [DAQLogging.key_func, h1, h2, h3]
  refine ⟨hRS, hRR, hUID, hID, ?_, ?_, ?_⟩
  · intro ha hcase
    rcases hcase with hb | hb | ⟨hb1, hb2⟩
    · refine sortKeys_precedes ks _ _ ?_ i j hi hj ha hb
      rw [hRS, hRR]
      decide
    · refine sortKeys_precedes ks _ _ ?_ i j hi hj ha rfl
      rw [hRS, hUID _ hb]
      decide
    · refine sortKeys_precedes ks _ _ ?_ i j hi hj ha rfl
      rw [hRS, hb1]
      calc (String.mk [Char.ofNat 0]).toList
          < (String.mk [Char.ofNat 2]).toList := by decide
        _ < _ := hb2
  · intro ha hcase
    rcases hcase with hb | ⟨hb1, hb2⟩
    · refine sortKeys_precedes ks _ _ ?_ i j hi hj ha rfl
      rw [hRR, hUID _ hb]
      decide
    · refine sortKeys_precedes ks _ _ ?_ i j hi hj ha rfl
      rw [hRR, hb1]
      calc (String.mk [Char.ofNat 1]).toList
          < (String.mk [Char.ofNat 2]).toList := by decide
        _ < _ := hb2
  · intro ha ⟨hb1, hb2⟩
    refine sortKeys_precedes ks _ _ ?_ i j hi hj rfl rfl
    rw [hUID _ ha, hb1]
    exact hb2

/-- C9 witness: with columns `[Mass_Flow, Unit_ID, Response Received,
Request Sent]` the sorted order is `Request Sent`, `Response Received`,
`Unit_ID`, then the payload column. -/
theorem C9_witness :
    ((DAQLogging.sortKeys ["Mass_Flow", "Unit_ID", "Response Received", "Request Sent"]).get
        ⟨0, by decide⟩ = "Request Sent" ∧
      (DAQLogging.sortKeys ["Mass_Flow", "Unit_ID", "Response Received", "Request Sent"]).get
        ⟨1, by decide⟩ = "Response Received") ∧
    (0 : ℕ) < 1 := by
  refine ⟨⟨by decide, by decide⟩, ?_⟩
  exact (C9_key_func_ordering
    ["Mass_Flow", "Unit_ID", "Response Received", "Request Sent"] 0 1
    (by decide) (by decide)).2.2.2.2.1 (by decide) (Or.inl (by decide))

/-- C9 counterexample: the empty-string column key sorts *before*
`Request Sent` — its synthesized key `""` compares below `chr(0)` — so
`Request Sent` is not sorted ahead of every other key. -/
theorem C9_counterexample_empty_key_sorts_first :
    DAQLogging.sortKeys ["Request Sent", ""] = ["", "Request Sent"] ∧
    ("" : String) ≠ "Request Sent" := by
  refine ⟨by decide, by decide⟩
